import Mathlib

/-!
Verification of the VoIP-client call-lifecycle finite state machine
(`backend/pkg/fsm/fsm.go`, latest revision) and of the synchronous dial
handler of the HTTP gateway (`waitForFSMState` / `serveDial`).

The Go code is shallowly embedded: the FSM struct becomes a Lean structure,
each event-handler method becomes a pure function from the pre-state (plus
the externally determined inputs: the current clock value, the result of
the text-to-speech call, and the success/failure of each command sent to
the baresip adapter) to a `StepOutput` holding the returned error, the
post-state, and the list of commands the handler asked the adapter to send.
`time.Time` values are modelled as integers (nanoseconds), with `0` playing
the role of Go's zero `time.Time` (`IsZero`); `time.Now()` is never the
zero time, hence clock inputs of genuine runs satisfy `0 < now`.
-/

namespace VoipClient

/-- The five FSM states of the latest `fsm.go` revision. -/
inductive FSMState where
  | Uninitialized
  | WaitingUserAgentRegistration
  | WaitingInputs
  | WaitForCallEstablishment
  | WaitForCallCompletion
deriving DecidableEq, Repr

/-- Errors returned by the FSM methods: `ErrInvalidState` plus the
propagated command-send errors (represented abstractly). -/
inductive FsmError where
  | invalidState
  | cmdSendError
deriving DecidableEq, Repr

/-- Commands the FSM asks the baresip adapter to send, as built at the call
sites in `fsm.go`: `CmdTxWithAck` with an explicit `CommandMsg` (whose
`Token` field the FSM leaves at its zero value `""`), `CmdDial(number)`,
`CmdAusrc(driver, device)` and `CmdHangupID(callId)`.  Only `txWithAck`
carries a token supplied by the FSM itself; the dedicated helpers take no
token argument from the FSM. -/
inductive BaresipCmd where
  | txWithAck (command params token : String)
  | dial (number : String)
  | ausrc (driver device : String)
  | hangupId (callId : String)
deriving DecidableEq, Repr

/-- The token the FSM itself attached to a command, if any. -/
def BaresipCmd.fsmToken : BaresipCmd → Option String
  | .txWithAck _ _ t => some t
  | .dial _ => none
  | .ausrc _ _ => none
  | .hangupId _ => none

/-- The fields of the Go struct `VoipClientFSM` that the handlers read or
write.  `maxVoiceCallDuration` is the configured `time.Duration` (int64
nanoseconds); `currentCallStartTime` is `0` exactly when the Go value
`IsZero()`. -/
structure VoipClientFSM where
  maxVoiceCallDuration : Int
  currentState : FSMState
  registered : Bool
  numDialCmds : Int
  pendingAudioFileToPlay : String
  currentCallId : String
  currentCallStartTime : Int
deriving DecidableEq, Repr

/-- Embedding of `NewCallRequest` from `fsm.go`. -/
structure NewCallRequest where
  CalledNumber : String
  MessageTTS : String
deriving DecidableEq, Repr

/-- The fields of `gobaresip.EventMsg` the FSM handlers read. -/
structure EventMsg where
  ID : String
  PeerURI : String
  AccountAOR : String
deriving DecidableEq, Repr

/-- Result of running one handler: the Go return value (`error`), the
post-state, and the commands the handler asked the adapter to send
(whether or not the send succeeded). -/
structure StepOutput where
  err : Option FsmError
  st : VoipClientFSM
  cmds : List BaresipCmd
deriving DecidableEq, Repr

/-- Embedding of `NewVoipClientFSM`: initial state `Uninitialized`; all remaining fields
take Go's zero values (`false`, `0`, `""`, zero time). -/
def NewVoipClientFSM (maxVoiceCallDuration : Int) : VoipClientFSM :=
  { maxVoiceCallDuration := maxVoiceCallDuration
    currentState := FSMState.Uninitialized
    registered := false
    numDialCmds := 0
    pendingAudioFileToPlay := ""
    currentCallId := ""
    currentCallStartTime := 0 }

/-- Embedding of `transitionTo`: sets `currentState`; when the target state is
`WaitingInputs` it additionally resets `pendingAudioFileToPlay`,
`currentCallId` and `currentCallStartTime` inside the same call, before the
new state is published to the broadcaster. -/
def transitionTo (fsm : VoipClientFSM) (state : FSMState) : VoipClientFSM :=
  let fsm1 := { fsm with currentState := state }
  if state = FSMState.WaitingInputs then
    { fsm1 with
      pendingAudioFileToPlay := ""
      currentCallId := ""
      currentCallStartTime := 0 }
  else fsm1

/-- Embedding of `InitializeUserAgent(sip_uri, password)`: only valid in
`Uninitialized`; sends a `uanew` command via `CmdTxWithAck` (no token set
by the FSM); on send failure propagates the error without transitioning,
on success transitions to `WaitingUserAgentRegistration`.
`uanewErr` is the success/failure of the command exchange. -/
def InitializeUserAgent (fsm : VoipClientFSM) (sip_uri password : String)
    (uanewErr : Bool) : StepOutput :=
  if fsm.currentState ≠ FSMState.Uninitialized then
    ⟨some FsmError.invalidState, fsm, []⟩
  else
    let cmd := BaresipCmd.txWithAck "uanew" (sip_uri ++ ";auth_pass=" ++ password) ""
    if uanewErr then ⟨some FsmError.cmdSendError, fsm, [cmd]⟩
    else ⟨none, transitionTo fsm FSMState.WaitingUserAgentRegistration, [cmd]⟩

/-- Embedding of `OnTimeoutTicker()`: no-op in `Uninitialized`,
`WaitingUserAgentRegistration` and `WaitingInputs`.  In the two in-call
states, when `currentCallStartTime` is not the zero time and
`time.Since(currentCallStartTime) > maxVoiceCallDuration`, it sends
`CmdHangupID(currentCallId)` and transitions to `WaitingInputs` whether or
not the hangup send succeeded (`hangupErr`). -/
def OnTimeoutTicker (fsm : VoipClientFSM) (now : Int) (hangupErr : Bool) :
    StepOutput :=
  if fsm.currentState = FSMState.WaitForCallEstablishment ∨
      fsm.currentState = FSMState.WaitForCallCompletion then
    if fsm.currentCallStartTime ≠ 0 ∧
        now - fsm.currentCallStartTime > fsm.maxVoiceCallDuration then
      ⟨none, transitionTo fsm FSMState.WaitingInputs,
        [BaresipCmd.hangupId fsm.currentCallId]⟩
    else ⟨none, fsm, []⟩
  else ⟨none, fsm, []⟩

/-- Embedding of `OnNewOutgoingCallRequest(newRequest)`: only valid in `WaitingInputs`,
otherwise returns `ErrInvalidState` and changes nothing.  On acceptance it
calls the TTS service (`ttsResult = none` models a TTS error, in which
case the handler transitions back to `WaitingInputs` and returns `nil`);
on TTS success it stores the audio path, increments `numDialCmds`, records
`currentCallStartTime = time.Now()`, and sends `CmdDial(CalledNumber)`;
on dial-send failure (`dialErr`) it transitions back to `WaitingInputs`,
otherwise to `WaitForCallEstablishment`; in both cases it returns `nil`. -/
def OnNewOutgoingCallRequest (fsm : VoipClientFSM) (newRequest : NewCallRequest)
    (ttsResult : Option String) (now : Int) (dialErr : Bool) : StepOutput :=
  if fsm.currentState ≠ FSMState.WaitingInputs then
    ⟨some FsmError.invalidState, fsm, []⟩
  else
    match ttsResult with
    | none =>
        ⟨none, transitionTo { fsm with pendingAudioFileToPlay := "" }
          FSMState.WaitingInputs, []⟩
    | some path =>
        let fsm1 := { fsm with
          pendingAudioFileToPlay := path
          numDialCmds := fsm.numDialCmds + 1
          currentCallStartTime := now }
        if dialErr then
          ⟨none, transitionTo fsm1 FSMState.WaitingInputs,
            [BaresipCmd.dial newRequest.CalledNumber]⟩
        else
          ⟨none, transitionTo fsm1 FSMState.WaitForCallEstablishment,
            [BaresipCmd.dial newRequest.CalledNumber]⟩

/-- Embedding of `OnRegisterOk(event)`: sets `registered = true` in every state, then
transitions to `WaitingInputs` only when currently in
`WaitingUserAgentRegistration`. -/
def OnRegisterOk (fsm : VoipClientFSM) (event : EventMsg) : StepOutput :=
  let fsm1 := { fsm with registered := true }
  if fsm1.currentState = FSMState.WaitingUserAgentRegistration then
    ⟨none, transitionTo fsm1 FSMState.WaitingInputs, []⟩
  else ⟨none, fsm1, []⟩

/-- Embedding of `OnRegisterFail(event)`: sets `registered = false` and unconditionally
transitions to `WaitingUserAgentRegistration`. -/
def OnRegisterFail (fsm : VoipClientFSM) (event : EventMsg) : StepOutput :=
  ⟨none, transitionTo { fsm with registered := false }
    FSMState.WaitingUserAgentRegistration, []⟩

/-- Embedding of `OnCallOutgoing(event)`: records `currentCallId = event.ID`
unconditionally, in every state, and performs no transition. -/
def OnCallOutgoing (fsm : VoipClientFSM) (event : EventMsg) : StepOutput :=
  ⟨none, { fsm with currentCallId := event.ID }, []⟩

/-- Embedding of `OnCallEstablished(event)`: only valid in `WaitForCallEstablishment`;
when `currentCallId` is already set and differs from `event.ID` this is a
bug signal returning `ErrInvalidState`.  Otherwise it sends
`CmdAusrc("aufile", pendingAudioFileToPlay)`; on send failure (`ausrcErr`)
it transitions to `WaitForCallCompletion` and returns at once (without
touching `currentCallStartTime`); on success it transitions to
`WaitForCallCompletion` and then sets `currentCallStartTime = time.Now()`. -/
def OnCallEstablished (fsm : VoipClientFSM) (event : EventMsg)
    (ausrcErr : Bool) (now : Int) : StepOutput :=
  if fsm.currentState ≠ FSMState.WaitForCallEstablishment then
    ⟨some FsmError.invalidState, fsm, []⟩
  else if fsm.currentCallId ≠ "" ∧ fsm.currentCallId ≠ event.ID then
    ⟨some FsmError.invalidState, fsm, []⟩
  else
    let cmd := BaresipCmd.ausrc "aufile" fsm.pendingAudioFileToPlay
    if ausrcErr then
      ⟨none, transitionTo fsm FSMState.WaitForCallCompletion, [cmd]⟩
    else
      ⟨none, { transitionTo fsm FSMState.WaitForCallCompletion with
        currentCallStartTime := now }, [cmd]⟩

/-- Embedding of `OnEndOfFile(event)`: only valid in `WaitForCallCompletion`; sends
`CmdHangupID(currentCallId)` and does not transition, whether or not the
hangup send succeeded (`hangupErr`): the state change happens when the
call-closed event arrives. -/
def OnEndOfFile (fsm : VoipClientFSM) (event : EventMsg) (hangupErr : Bool) :
    StepOutput :=
  if fsm.currentState ≠ FSMState.WaitForCallCompletion then
    ⟨some FsmError.invalidState, fsm, []⟩
  else
    ⟨none, fsm, [BaresipCmd.hangupId fsm.currentCallId]⟩

/-- Embedding of `OnCallClosed(event)`: invalid when the current state is
`WaitingInputs`, and also (bug signal) when `currentCallId` is set and
differs from `event.ID`; otherwise transitions to `WaitingInputs`. -/
def OnCallClosed (fsm : VoipClientFSM) (event : EventMsg) : StepOutput :=
  if fsm.currentState = FSMState.WaitingInputs then
    ⟨some FsmError.invalidState, fsm, []⟩
  else if fsm.currentCallId ≠ "" ∧ fsm.currentCallId ≠ event.ID then
    ⟨some FsmError.invalidState, fsm, []⟩
  else
    ⟨none, transitionTo fsm FSMState.WaitingInputs, []⟩

/-!
Embedding of the synchronous dial path of the HTTP gateway
(`serveDial` and `waitForFSMState` in `backend/pkg/httpserver/server.go`).
The handler goroutine's externally visible actions are modelled as an
ordered trace; the inputs consumed by the wait loop (published FSM states
and keep-alive ticker firings, with the success of each keep-alive write)
are modelled as a list of `GwEvent`s in arrival order.  A run that
exhausts its input list while still waiting is modelled as `none`: the
real handler is still blocked and has not reached any exit path.
-/

/-- One input consumed by `waitForFSMState`'s select loop: a state value
received from the broadcast subscription, or a keep-alive ticker firing
(`writeOk` is whether the write to the HTTP client succeeded). -/
inductive GwEvent where
  | statePub (s : FSMState)
  | tick (writeOk : Bool)
deriving DecidableEq, Repr

/-- The externally visible actions of the dial handler, in order. -/
inductive GwAction where
  | sendFSM
  | writeHeader
  | subscribe
  | unsubscribe
  | keepAlive
  | respond
deriving DecidableEq, Repr

/-- The select loop of `waitForFSMState`: a published state equal to the
desired one ends the loop; other published states are ignored; on a ticker
firing the keep-alive chunk is written, and a failed write ends the loop.
Returns the loop's own actions, or `none` when the inputs are exhausted
while the loop is still blocked. -/
def waitLoop (desiredState : FSMState) : List GwEvent → Option (List GwAction)
  | [] => none
  | GwEvent.statePub s :: rest =>
      if s = desiredState then some [] else waitLoop desiredState rest
  | GwEvent.tick writeOk :: rest =>
      if writeOk then
        Option.map (fun t => GwAction.keepAlive :: t) (waitLoop desiredState rest)
      else some [GwAction.keepAlive]

/-- Embedding of `waitForFSMState(desiredState, w)`: registers the fresh channel on the
broadcaster, runs the select loop, and unregisters (deferred) on every way
out of the loop. -/
def waitForFSMState (desiredState : FSMState) (evs : List GwEvent) :
    Option (List GwAction) :=
  Option.map (fun t => GwAction.subscribe :: (t ++ [GwAction.unsubscribe]))
    (waitLoop desiredState evs)

/-- The synchronous branch of `serveDial`, starting from the point where
the validated payload is ready: it first sends the payload into the FSM
intake channel (`h.outCh <- payload`), then writes the 200 header, then
calls `waitForFSMState(WaitingInputs, w)`, then writes the response body. -/
def serveDialSync (evs : List GwEvent) : Option (List GwAction) :=
  Option.map
    (fun t => GwAction.sendFSM :: GwAction.writeHeader :: (t ++ [GwAction.respond]))
    (waitForFSMState FSMState.WaitingInputs evs)

/-!
Reachability: the states the FSM can actually be in at rest, starting from
`NewVoipClientFSM` and applying handler calls with arbitrary inputs.  The
clock inputs of the two handlers that record `time.Now()` carry the
hypothesis `0 < now`, since Go's `time.Now()` is never the zero time.
-/

/-- Reachable FSM states. -/
inductive Reachable : VoipClientFSM → Prop where
  | start (maxVoiceCallDuration : Int) :
      Reachable (NewVoipClientFSM maxVoiceCallDuration)
  | initUA {s} (hs : Reachable s) (sip_uri password : String) (uanewErr : Bool) :
      Reachable (InitializeUserAgent s sip_uri password uanewErr).st
  | ticker {s} (hs : Reachable s) (now : Int) (hangupErr : Bool) :
      Reachable (OnTimeoutTicker s now hangupErr).st
  | newCall {s} (hs : Reachable s) (newRequest : NewCallRequest)
      (ttsResult : Option String) (now : Int) (hnow : 0 < now) (dialErr : Bool) :
      Reachable (OnNewOutgoingCallRequest s newRequest ttsResult now dialErr).st
  | regOk {s} (hs : Reachable s) (event : EventMsg) :
      Reachable (OnRegisterOk s event).st
  | regFail {s} (hs : Reachable s) (event : EventMsg) :
      Reachable (OnRegisterFail s event).st
  | callOutgoing {s} (hs : Reachable s) (event : EventMsg) :
      Reachable (OnCallOutgoing s event).st
  | established {s} (hs : Reachable s) (event : EventMsg) (ausrcErr : Bool)
      (now : Int) (hnow : 0 < now) :
      Reachable (OnCallEstablished s event ausrcErr now).st
  | endOfFile {s} (hs : Reachable s) (event : EventMsg) (hangupErr : Bool) :
      Reachable (OnEndOfFile s event hangupErr).st
  | callClosed {s} (hs : Reachable s) (event : EventMsg) :
      Reachable (OnCallClosed s event).st

/-- The one-directional idle invariant: in `WaitingInputs` the three
call-scoped fields are all empty/zero. -/
def IdleCleared (s : VoipClientFSM) : Prop :=
  s.currentState = FSMState.WaitingInputs →
    s.currentCallId = "" ∧ s.pendingAudioFileToPlay = "" ∧
      s.currentCallStartTime = 0

instance (s : VoipClientFSM) : Decidable (IdleCleared s) := by
  unfold IdleCleared; infer_instance

/-- In both in-call states a reachable machine has a nonzero call start
time, so the timeout ticker's `IsZero` guard never masks a timeout. -/
def CallClockSet (s : VoipClientFSM) : Prop :=
  (s.currentState = FSMState.WaitForCallEstablishment ∨
      s.currentState = FSMState.WaitForCallCompletion) →
    s.currentCallStartTime ≠ 0

instance (s : VoipClientFSM) : Decidable (CallClockSet s) := by
  unfold CallClockSet; infer_instance

/-!
Concrete sample runs, used by the witnesses and counterexamples below.
`sampleUninit` is a freshly constructed machine with a maximum call
duration of 10 time units; the later states follow the nominal path:
user-agent initialization, successful registration, an accepted dial
request at time 5 with TTS output `/cache/a.wav`, and the call-outgoing
event assigning call id `call1`.
-/

/-- Concrete registration event. -/
def sampleRegEvent : EventMsg :=
  { ID := "", PeerURI := "", AccountAOR := "sip:user@host" }

/-- Concrete call event with id `call1`. -/
def sampleCallEvent : EventMsg :=
  { ID := "call1", PeerURI := "sip:bob@host", AccountAOR := "" }

/-- Concrete dial request. -/
def sampleRequest : NewCallRequest :=
  { CalledNumber := "sip:bob@host", MessageTTS := "hello" }

/-- Fresh machine, max call duration 10. -/
def sampleUninit : VoipClientFSM := NewVoipClientFSM 10

/-- After `InitializeUserAgent` succeeds: `WaitingUserAgentRegistration`. -/
def sampleRegistering : VoipClientFSM :=
  (InitializeUserAgent sampleUninit "sip:user@host" "pw" false).st

/-- After `OnRegisterOk`: `WaitingInputs`. -/
def sampleIdle : VoipClientFSM := (OnRegisterOk sampleRegistering sampleRegEvent).st

/-- After an accepted dial request at time 5 (TTS returned
`/cache/a.wav`, dial send succeeded): `WaitForCallEstablishment`. -/
def sampleDialed : VoipClientFSM :=
  (OnNewOutgoingCallRequest sampleIdle sampleRequest (some "/cache/a.wav") 5 false).st

/-- After the call-outgoing event: `currentCallId = "call1"`. -/
def sampleOutgoing : VoipClientFSM := (OnCallOutgoing sampleDialed sampleCallEvent).st

/-- The nominal path above only visits reachable states. -/
theorem sampleOutgoing_reachable : Reachable sampleOutgoing :=
  Reachable.callOutgoing
    (Reachable.newCall
      (Reachable.regOk
        (Reachable.initUA (Reachable.start 10) "sip:user@host" "pw" false)
        sampleRegEvent)
      sampleRequest (some "/cache/a.wav") 5 (by norm_num) false)
    sampleCallEvent

/-- Reachability of the dialed state. -/
theorem sampleDialed_reachable : Reachable sampleDialed :=
  Reachable.newCall
    (Reachable.regOk
      (Reachable.initUA (Reachable.start 10) "sip:user@host" "pw" false)
      sampleRegEvent)
    sampleRequest (some "/cache/a.wav") 5 (by norm_num) false

/-- Reachability of the idle state. -/
theorem sampleIdle_reachable : Reachable sampleIdle :=
  Reachable.regOk
    (Reachable.initUA (Reachable.start 10) "sip:user@host" "pw" false)
    sampleRegEvent

/-!
Helper lemmas about `transitionTo` and preservation of the two invariants.
-/

/-- A transition into `WaitingInputs` resets the three call-scoped fields
inside the same `transitionTo` call. -/
theorem transitionTo_idle (s : VoipClientFSM) :
    transitionTo s FSMState.WaitingInputs =
      { s with currentState := FSMState.WaitingInputs
               pendingAudioFileToPlay := ""
               currentCallId := ""
               currentCallStartTime := 0 } := by
  simp [transitionTo]

/-- A transition into any other state only changes `currentState`. -/
theorem transitionTo_not_idle (s : VoipClientFSM) (t : FSMState)
    (h : t ≠ FSMState.WaitingInputs) :
    transitionTo s t = { s with currentState := t } := by
  simp [transitionTo, h]

/-- Lemma: every `transitionTo` result satisfies the one-directional idle
invariant, whatever the pre-state was. -/
theorem idleCleared_transitionTo (s : VoipClientFSM) (t : FSMState) :
    IdleCleared (transitionTo s t) := by
  unfold IdleCleared transitionTo
  by_cases h : t = FSMState.WaitingInputs <;> simp [h]

/-- Lemma: `InitializeUserAgent` preserves the idle invariant. -/
theorem idleCleared_initUA (s : VoipClientFSM) (h : IdleCleared s)
    (sip_uri password : String) (uanewErr : Bool) :
    IdleCleared (InitializeUserAgent s sip_uri password uanewErr).st := by
  unfold InitializeUserAgent
  split_ifs <;> first
    | exact h
    | exact idleCleared_transitionTo _ _

/-- Lemma: `OnTimeoutTicker` preserves the idle invariant. -/
theorem idleCleared_ticker (s : VoipClientFSM) (h : IdleCleared s)
    (now : Int) (hangupErr : Bool) :
    IdleCleared (OnTimeoutTicker s now hangupErr).st := by
  unfold OnTimeoutTicker
  split_ifs <;> first
    | exact h
    | exact idleCleared_transitionTo _ _

/-- Lemma: `OnNewOutgoingCallRequest` preserves the idle invariant. -/
theorem idleCleared_newCall (s : VoipClientFSM) (h : IdleCleared s)
    (newRequest : NewCallRequest) (ttsResult : Option String)
    (now : Int) (dialErr : Bool) :
    IdleCleared (OnNewOutgoingCallRequest s newRequest ttsResult now dialErr).st := by
  unfold OnNewOutgoingCallRequest
  cases ttsResult with
  | none =>
      dsimp only
      split_ifs <;> first
        | exact h
        | exact idleCleared_transitionTo _ _
  | some path =>
      dsimp only
      split_ifs <;> first
        | exact h
        | exact idleCleared_transitionTo _ _

/-- Lemma: `OnRegisterOk` preserves the idle invariant. -/
theorem idleCleared_regOk (s : VoipClientFSM) (h : IdleCleared s)
    (event : EventMsg) : IdleCleared (OnRegisterOk s event).st := by
  unfold OnRegisterOk
  dsimp only
  split_ifs with h1
  · exact idleCleared_transitionTo _ _
  · intro hs
    exact h hs

/-- Lemma: `OnRegisterFail` preserves the idle invariant. -/
theorem idleCleared_regFail (s : VoipClientFSM) (event : EventMsg) :
    IdleCleared (OnRegisterFail s event).st :=
  idleCleared_transitionTo _ _

/-- Lemma: `OnCallOutgoing` preserves the idle invariant when the event carries an
empty call id (it breaks it otherwise, see the C1 counterexample). -/
theorem idleCleared_callOutgoing (s : VoipClientFSM) (h : IdleCleared s)
    (event : EventMsg) (hid : event.ID = "") :
    IdleCleared (OnCallOutgoing s event).st := by
  unfold OnCallOutgoing
  intro hs
  refine ⟨hid, ?_, ?_⟩ <;> exact (h hs).2.1 ▸ (h hs).2.2 ▸ rfl

/-- Lemma: `OnCallEstablished` preserves the idle invariant. -/
theorem idleCleared_established (s : VoipClientFSM) (h : IdleCleared s)
    (event : EventMsg) (ausrcErr : Bool) (now : Int) :
    IdleCleared (OnCallEstablished s event ausrcErr now).st := by
  unfold OnCallEstablished
  split_ifs <;> first
    | exact h
    | exact idleCleared_transitionTo _ _
    | (intro hs; exact absurd hs (by simp [transitionTo]))

/-- Lemma: `OnEndOfFile` preserves the idle invariant. -/
theorem idleCleared_endOfFile (s : VoipClientFSM) (h : IdleCleared s)
    (event : EventMsg) (hangupErr : Bool) :
    IdleCleared (OnEndOfFile s event hangupErr).st := by
  unfold OnEndOfFile
  split_ifs <;> exact h

/-- Lemma: `OnCallClosed` preserves the idle invariant. -/
theorem idleCleared_callClosed (s : VoipClientFSM) (h : IdleCleared s)
    (event : EventMsg) : IdleCleared (OnCallClosed s event).st := by
  unfold OnCallClosed
  split_ifs <;> first
    | exact h
    | exact idleCleared_transitionTo _ _

/-- Lemma: `transitionTo` into a state other than the two in-call states yields a
state satisfying `CallClockSet` vacuously. -/
theorem callClockSet_transitionTo_out (s : VoipClientFSM) (t : FSMState)
    (h1 : t ≠ FSMState.WaitForCallEstablishment)
    (h2 : t ≠ FSMState.WaitForCallCompletion) :
    CallClockSet (transitionTo s t) := by
  unfold CallClockSet transitionTo
  by_cases h : t = FSMState.WaitingInputs <;> simp [h, h1, h2]

/-- Lemma: `InitializeUserAgent` preserves the call-clock invariant. -/
theorem callClockSet_initUA (s : VoipClientFSM) (h : CallClockSet s)
    (sip_uri password : String) (uanewErr : Bool) :
    CallClockSet (InitializeUserAgent s sip_uri password uanewErr).st := by
  unfold InitializeUserAgent
  split_ifs <;> first
    | exact h
    | exact callClockSet_transitionTo_out _ _ (by simp) (by simp)

/-- Lemma: `OnTimeoutTicker` preserves the call-clock invariant. -/
theorem callClockSet_ticker (s : VoipClientFSM) (h : CallClockSet s)
    (now : Int) (hangupErr : Bool) :
    CallClockSet (OnTimeoutTicker s now hangupErr).st := by
  unfold OnTimeoutTicker
  split_ifs <;> first
    | exact h
    | exact callClockSet_transitionTo_out _ _ (by simp) (by simp)

/-- Lemma: `OnNewOutgoingCallRequest` preserves the call-clock invariant when the
clock input is not the zero time. -/
theorem callClockSet_newCall (s : VoipClientFSM) (h : CallClockSet s)
    (newRequest : NewCallRequest) (ttsResult : Option String)
    (now : Int) (hnow : 0 < now) (dialErr : Bool) :
    CallClockSet (OnNewOutgoingCallRequest s newRequest ttsResult now dialErr).st := by
  unfold OnNewOutgoingCallRequest
  cases ttsResult with
  | none =>
      dsimp only
      split_ifs <;> first
        | exact h
        | exact callClockSet_transitionTo_out _ _ (by simp) (by simp)
  | some path =>
      dsimp only
      split_ifs with h1 h2
      · exact h
      · exact callClockSet_transitionTo_out _ _ (by simp) (by simp)
      · intro hs
        rw [transitionTo_not_idle _ _ (by simp)]
        dsimp only
        omega

/-- Lemma: `OnRegisterOk` preserves the call-clock invariant. -/
theorem callClockSet_regOk (s : VoipClientFSM) (h : CallClockSet s)
    (event : EventMsg) : CallClockSet (OnRegisterOk s event).st := by
  unfold OnRegisterOk
  dsimp only
  split_ifs with h1
  · exact callClockSet_transitionTo_out _ _ (by simp) (by simp)
  · intro hs
    exact h hs

/-- Lemma: `OnRegisterFail` preserves the call-clock invariant. -/
theorem callClockSet_regFail (s : VoipClientFSM) (event : EventMsg) :
    CallClockSet (OnRegisterFail s event).st :=
  callClockSet_transitionTo_out _ _ (by simp) (by simp)

/-- Lemma: `OnCallOutgoing` preserves the call-clock invariant. -/
theorem callClockSet_callOutgoing (s : VoipClientFSM) (h : CallClockSet s)
    (event : EventMsg) : CallClockSet (OnCallOutgoing s event).st := by
  unfold OnCallOutgoing
  intro hs
  exact h hs

/-- Lemma: `OnCallEstablished` preserves the call-clock invariant when the clock
input is not the zero time. -/
theorem callClockSet_established (s : VoipClientFSM) (h : CallClockSet s)
    (event : EventMsg) (ausrcErr : Bool) (now : Int) (hnow : 0 < now) :
    CallClockSet (OnCallEstablished s event ausrcErr now).st := by
  unfold OnCallEstablished
  split_ifs with h1 h2 h3
  · exact h
  · exact h
  · intro hs
    rw [transitionTo_not_idle _ _ (by simp)]
    exact h (Or.inl (not_not.mp h1))
  · intro hs
    dsimp only
    omega

/-- Lemma: `OnEndOfFile` preserves the call-clock invariant. -/
theorem callClockSet_endOfFile (s : VoipClientFSM) (h : CallClockSet s)
    (event : EventMsg) (hangupErr : Bool) :
    CallClockSet (OnEndOfFile s event hangupErr).st := by
  unfold OnEndOfFile
  split_ifs <;> exact h

/-- Lemma: `OnCallClosed` preserves the call-clock invariant. -/
theorem callClockSet_callClosed (s : VoipClientFSM) (h : CallClockSet s)
    (event : EventMsg) : CallClockSet (OnCallClosed s event).st := by
  unfold OnCallClosed
  split_ifs <;> first
    | exact h
    | exact callClockSet_transitionTo_out _ _ (by simp) (by simp)

/-- Every reachable state satisfies the call-clock invariant: in the two
in-call states `currentCallStartTime` is never the zero time. -/
theorem reachable_callClockSet (s : VoipClientFSM) (h : Reachable s) :
    CallClockSet s := by
  induction h with
  | start d => simp [CallClockSet, NewVoipClientFSM]
  | initUA hs sip_uri password uanewErr ih =>
      exact callClockSet_initUA _ ih _ _ _
  | ticker hs now hangupErr ih => exact callClockSet_ticker _ ih _ _
  | newCall hs newRequest ttsResult now hnow dialErr ih =>
      exact callClockSet_newCall _ ih _ _ _ hnow _
  | regOk hs event ih => exact callClockSet_regOk _ ih _
  | regFail hs event ih => exact callClockSet_regFail _ _
  | callOutgoing hs event ih => exact callClockSet_callOutgoing _ ih _
  | established hs event ausrcErr now hnow ih =>
      exact callClockSet_established _ ih _ _ _ hnow
  | endOfFile hs event hangupErr ih => exact callClockSet_endOfFile _ ih _ _
  | callClosed hs event ih => exact callClockSet_callClosed _ ih _

/-- Projections of `transitionTo` that never change. -/
theorem transitionTo_numDialCmds (s : VoipClientFSM) (t : FSMState) :
    (transitionTo s t).numDialCmds = s.numDialCmds := by
  unfold transitionTo
  by_cases h : t = FSMState.WaitingInputs <;> simp [h]

/-!
Claim theorems.
-/

/-- C1 counterexample: the claimed two-sided invariant is false on the
running program.  (a) The initial state is reachable, has
`currentCallId`, `pendingAudioFileToPlay` and `currentCallStartTime` all
empty/zero, yet its `currentState` is `Uninitialized`, not
`WaitingInputs`; (b) `OnCallOutgoing` does not preserve the invariant
either: from the reachable idle state it records the event's call id
without leaving `WaitingInputs`, so afterwards the machine is idle with a
non-empty `currentCallId`. -/
theorem C1_counterexample :
    (Reachable sampleUninit ∧
      sampleUninit.currentCallId = "" ∧
      sampleUninit.pendingAudioFileToPlay = "" ∧
      sampleUninit.currentCallStartTime = 0 ∧
      sampleUninit.currentState ≠ FSMState.WaitingInputs) ∧
    (Reachable sampleIdle ∧
      sampleIdle.currentState = FSMState.WaitingInputs ∧
      sampleIdle.currentCallId = "" ∧
      (OnCallOutgoing sampleIdle sampleCallEvent).st.currentState =
        FSMState.WaitingInputs ∧
      (OnCallOutgoing sampleIdle sampleCallEvent).st.currentCallId ≠ "") :=
  ⟨⟨Reachable.start 10, by decide, by decide, by decide, by decide⟩,
   ⟨sampleIdle_reachable, by decide, by decide, by decide, by decide⟩⟩

/-- C1 (amended): only the forward direction of the invariant holds, and
only for the operations other than `OnCallOutgoing`: whenever
`currentState = WaitingInputs` the three call-scoped fields are all
empty/zero; this holds initially and is preserved by `InitializeUserAgent`,
`OnTimeoutTicker`, `OnNewOutgoingCallRequest`, `OnRegisterOk`,
`OnRegisterFail`, `OnCallEstablished`, `OnEndOfFile` and `OnCallClosed`,
while `OnCallOutgoing` preserves it only for events with an empty call id.
Every transition into `WaitingInputs` resets the three fields inside the
same `transitionTo` call. -/
theorem C1_idle_invariant :
    (∀ maxVoiceCallDuration,
      IdleCleared (NewVoipClientFSM maxVoiceCallDuration)) ∧
    (∀ s, (transitionTo s FSMState.WaitingInputs).currentCallId = "" ∧
      (transitionTo s FSMState.WaitingInputs).pendingAudioFileToPlay = "" ∧
      (transitionTo s FSMState.WaitingInputs).currentCallStartTime = 0) ∧
    (∀ s, IdleCleared s →
      (∀ sip_uri password uanewErr,
        IdleCleared (InitializeUserAgent s sip_uri password uanewErr).st) ∧
      (∀ now hangupErr, IdleCleared (OnTimeoutTicker s now hangupErr).st) ∧
      (∀ newRequest ttsResult now dialErr,
        IdleCleared (OnNewOutgoingCallRequest s newRequest ttsResult now dialErr).st) ∧
      (∀ event, IdleCleared (OnRegisterOk s event).st) ∧
      (∀ event, IdleCleared (OnRegisterFail s event).st) ∧
      (∀ event, event.ID = "" → IdleCleared (OnCallOutgoing s event).st) ∧
      (∀ event ausrcErr now,
        IdleCleared (OnCallEstablished s event ausrcErr now).st) ∧
      (∀ event hangupErr, IdleCleared (OnEndOfFile s event hangupErr).st) ∧
      (∀ event, IdleCleared (OnCallClosed s event).st)) := by
  refine ⟨?_, ?_, ?_⟩
  · intro d h
    simp [NewVoipClientFSM] at h
  · intro s
    simp [transitionTo]
  · intro s h
    exact ⟨fun sip_uri password uanewErr => idleCleared_initUA s h sip_uri password uanewErr,
      fun now hangupErr => idleCleared_ticker s h now hangupErr,
      fun newRequest ttsResult now dialErr =>
        idleCleared_newCall s h newRequest ttsResult now dialErr,
      fun event => idleCleared_regOk s h event,
      fun event => idleCleared_regFail s event,
      fun event hid => idleCleared_callOutgoing s h event hid,
      fun event ausrcErr now => idleCleared_established s h event ausrcErr now,
      fun event hangupErr => idleCleared_endOfFile s h event hangupErr,
      fun event => idleCleared_callClosed s h event⟩

/-- C1 witness: the amended invariant applied along a concrete step. -/
theorem C1_witness :
    IdleCleared (OnCallClosed sampleOutgoing sampleCallEvent).st :=
  (C1_idle_invariant.2.2 sampleOutgoing (by decide)).2.2.2.2.2.2.2.2
    sampleCallEvent

/-- C2: from any state other than `WaitingInputs`,
`OnNewOutgoingCallRequest` returns `ErrInvalidState`, leaves the whole FSM
record unchanged, and sends no command; the request value itself appears
nowhere in the result (it is dropped, not queued). -/
theorem C2_reject_outside_idle (s : VoipClientFSM) (newRequest : NewCallRequest)
    (ttsResult : Option String) (now : Int) (dialErr : Bool)
    (h : s.currentState ≠ FSMState.WaitingInputs) :
    OnNewOutgoingCallRequest s newRequest ttsResult now dialErr =
      ⟨some FsmError.invalidState, s, []⟩ := by
  unfold OnNewOutgoingCallRequest
  cases ttsResult <;> simp [h]

/-- C2 witness: a request arriving while a call is being established is
rejected with the machine untouched. -/
theorem C2_witness :
    OnNewOutgoingCallRequest sampleDialed sampleRequest (some "/cache/b.wav") 7 false =
      ⟨some FsmError.invalidState, sampleDialed, []⟩ :=
  C2_reject_outside_idle sampleDialed sampleRequest (some "/cache/b.wav") 7 false
    (by decide)

/-- C3 counterexample: in the reachable state `sampleOutgoing`
(`WaitForCallEstablishment`, call id `call1`, call started at time 5), a
matching `OnCallEstablished` whose set-audio-source command send fails
(`ausrcErr = true`) at current time 100 does transition to
`WaitForCallCompletion` but leaves `currentCallStartTime` at 5: the code
resets the timeout clock only on the command-success path, refuting the
claimed reset "regardless of whether that command succeeds or fails". -/
theorem C3_counterexample :
    Reachable sampleOutgoing ∧
    sampleOutgoing.currentState = FSMState.WaitForCallEstablishment ∧
    sampleOutgoing.currentCallId = sampleCallEvent.ID ∧
    sampleOutgoing.currentCallStartTime = 5 ∧
    (OnCallEstablished sampleOutgoing sampleCallEvent true 100).st.currentState =
      FSMState.WaitForCallCompletion ∧
    (OnCallEstablished sampleOutgoing sampleCallEvent true 100).st.currentCallStartTime = 5 ∧
    (5 : Int) ≠ 100 :=
  ⟨sampleOutgoing_reachable, by decide, by decide, by decide, by decide,
    by decide, by decide⟩

/-- C3 (amended): in `WaitForCallEstablishment`, with the event's call id
matching `currentCallId` (or `currentCallId` still empty),
`OnCallEstablished` issues exactly one set-audio-source command referencing
`pendingAudioFileToPlay`, returns no error, and transitions to
`WaitForCallCompletion` whether or not the command send succeeds; but it
resets `currentCallStartTime` to the current time only when the send
succeeds, and keeps the previous (dial-time) value when the send fails. -/
theorem C3_established_behavior (s : VoipClientFSM) (event : EventMsg)
    (ausrcErr : Bool) (now : Int)
    (hstate : s.currentState = FSMState.WaitForCallEstablishment)
    (hid : s.currentCallId = "" ∨ s.currentCallId = event.ID) :
    (OnCallEstablished s event ausrcErr now).err = none ∧
    (OnCallEstablished s event ausrcErr now).cmds =
      [BaresipCmd.ausrc "aufile" s.pendingAudioFileToPlay] ∧
    (OnCallEstablished s event ausrcErr now).st.currentState =
      FSMState.WaitForCallCompletion ∧
    (ausrcErr = false →
      (OnCallEstablished s event ausrcErr now).st.currentCallStartTime = now) ∧
    (ausrcErr = true →
      (OnCallEstablished s event ausrcErr now).st.currentCallStartTime =
        s.currentCallStartTime) := by
  have hguard : ¬(s.currentCallId ≠ "" ∧ s.currentCallId ≠ event.ID) := by
    rcases hid with h | h <;> simp [h]
  unfold OnCallEstablished
  rw [if_neg (by simp [hstate]), if_neg hguard]
  cases ausrcErr <;>
    simp [transitionTo_not_idle _ FSMState.WaitForCallCompletion (by simp)]

/-- C3 witness: the amended contract applied on the success path at
current time 100, and on the failure path at time 200. -/
theorem C3_witness :
    ((OnCallEstablished sampleOutgoing sampleCallEvent false 100).err = none ∧
      (OnCallEstablished sampleOutgoing sampleCallEvent false 100).cmds =
        [BaresipCmd.ausrc "aufile" sampleOutgoing.pendingAudioFileToPlay] ∧
      (OnCallEstablished sampleOutgoing sampleCallEvent false 100).st.currentState =
        FSMState.WaitForCallCompletion ∧
      (false = false →
        (OnCallEstablished sampleOutgoing sampleCallEvent false 100).st.currentCallStartTime =
          100) ∧
      (false = true →
        (OnCallEstablished sampleOutgoing sampleCallEvent false 100).st.currentCallStartTime =
          sampleOutgoing.currentCallStartTime)) :=
  C3_established_behavior sampleOutgoing sampleCallEvent false 100 (by decide)
    (Or.inr (by decide))

/-- C4: `OnTimeoutTicker` is a strict no-op (same state record, no command)
in `Uninitialized`, `WaitingUserAgentRegistration` and `WaitingInputs`; in
the two in-call states of any reachable machine, whenever the elapsed time
since `currentCallStartTime` exceeds `maxVoiceCallDuration` it sends
exactly one `CmdHangupID(currentCallId)` and transitions to
`WaitingInputs`, for either outcome of the hangup send. -/
theorem C4_timeout_ticker :
    (∀ s now hangupErr,
      (s.currentState = FSMState.Uninitialized ∨
        s.currentState = FSMState.WaitingUserAgentRegistration ∨
        s.currentState = FSMState.WaitingInputs) →
      OnTimeoutTicker s now hangupErr = ⟨none, s, []⟩) ∧
    (∀ s now hangupErr, Reachable s →
      (s.currentState = FSMState.WaitForCallEstablishment ∨
        s.currentState = FSMState.WaitForCallCompletion) →
      now - s.currentCallStartTime > s.maxVoiceCallDuration →
      (OnTimeoutTicker s now hangupErr).st.currentState = FSMState.WaitingInputs ∧
      (OnTimeoutTicker s now hangupErr).cmds =
        [BaresipCmd.hangupId s.currentCallId]) := by
  constructor
  · intro s now hangupErr h
    have hoff : ¬(s.currentState = FSMState.WaitForCallEstablishment ∨
        s.currentState = FSMState.WaitForCallCompletion) := by
      rcases h with h | h | h <;> simp [h]
    unfold OnTimeoutTicker
    rw [if_neg hoff]
  · intro s now hangupErr hreach hstate helapsed
    have hclock : s.currentCallStartTime ≠ 0 :=
      reachable_callClockSet s hreach hstate
    unfold OnTimeoutTicker
    rw [if_pos hstate, if_pos ⟨hclock, helapsed⟩]
    exact ⟨by simp [transitionTo], rfl⟩

/-- C4 witness: no-op from idle; forced hangup from the reachable in-call
state `sampleOutgoing` (call started at 5, max duration 10) at time 100,
with the hangup send itself failing. -/
theorem C4_witness :
    OnTimeoutTicker sampleIdle 3 false = ⟨none, sampleIdle, []⟩ ∧
    ((OnTimeoutTicker sampleOutgoing 100 true).st.currentState =
        FSMState.WaitingInputs ∧
      (OnTimeoutTicker sampleOutgoing 100 true).cmds =
        [BaresipCmd.hangupId sampleOutgoing.currentCallId]) :=
  ⟨C4_timeout_ticker.1 sampleIdle 3 false (Or.inr (Or.inr (by decide))),
   C4_timeout_ticker.2 sampleOutgoing 100 true sampleOutgoing_reachable
     (Or.inl (by decide)) (by decide)⟩

/-- C5: `OnCallClosed` returns `ErrInvalidState` with the machine and
command stream untouched when the state is `WaitingInputs` or when
`currentCallId` is non-empty and differs from the event's id; otherwise it
transitions to `WaitingInputs` with the three call-scoped fields cleared. -/
theorem C5_call_closed (s : VoipClientFSM) (event : EventMsg) :
    ((s.currentState = FSMState.WaitingInputs ∨
        (s.currentCallId ≠ "" ∧ s.currentCallId ≠ event.ID)) →
      OnCallClosed s event = ⟨some FsmError.invalidState, s, []⟩) ∧
    (s.currentState ≠ FSMState.WaitingInputs →
      (s.currentCallId = "" ∨ s.currentCallId = event.ID) →
      (OnCallClosed s event).err = none ∧
      (OnCallClosed s event).cmds = [] ∧
      (OnCallClosed s event).st.currentState = FSMState.WaitingInputs ∧
      (OnCallClosed s event).st.currentCallId = "" ∧
      (OnCallClosed s event).st.pendingAudioFileToPlay = "" ∧
      (OnCallClosed s event).st.currentCallStartTime = 0) := by
  constructor
  · intro h
    unfold OnCallClosed
    rcases h with h | h
    · rw [if_pos h]
    · by_cases h1 : s.currentState = FSMState.WaitingInputs
      · rw [if_pos h1]
      · rw [if_neg h1, if_pos h]
  · intro h1 h2
    have hguard : ¬(s.currentCallId ≠ "" ∧ s.currentCallId ≠ event.ID) := by
      rcases h2 with h | h <;> simp [h]
    unfold OnCallClosed
    rw [if_neg h1, if_neg hguard]
    simp [transitionTo]

/-- C5 witness: rejection from idle with a stale id, and acceptance from
the reachable in-call state `sampleOutgoing` with the matching id. -/
theorem C5_witness :
    (OnCallClosed sampleIdle sampleCallEvent =
      ⟨some FsmError.invalidState, sampleIdle, []⟩) ∧
    ((OnCallClosed sampleOutgoing sampleCallEvent).err = none ∧
      (OnCallClosed sampleOutgoing sampleCallEvent).cmds = [] ∧
      (OnCallClosed sampleOutgoing sampleCallEvent).st.currentState =
        FSMState.WaitingInputs ∧
      (OnCallClosed sampleOutgoing sampleCallEvent).st.currentCallId = "" ∧
      (OnCallClosed sampleOutgoing sampleCallEvent).st.pendingAudioFileToPlay = "" ∧
      (OnCallClosed sampleOutgoing sampleCallEvent).st.currentCallStartTime = 0) :=
  ⟨(C5_call_closed sampleIdle sampleCallEvent).1 (Or.inl (by decide)),
   (C5_call_closed sampleOutgoing sampleCallEvent).2 (by decide)
     (Or.inr (by decide))⟩

/-- C6 counterexample: on a concrete synchronous run (the FSM publishes
`WaitingInputs` once), the handler's action trace shows the send into the
FSM intake channel happening strictly before the State Notifier
subscription: `serveDial` performs `h.outCh <- payload` first, and only
`waitForFSMState` subscribes afterwards, refuting
"subscribes ... before forwarding the dial request". -/
theorem C6_counterexample :
    serveDialSync [GwEvent.statePub FSMState.WaitingInputs] =
      some [GwAction.sendFSM, GwAction.writeHeader, GwAction.subscribe,
        GwAction.unsubscribe, GwAction.respond] ∧
    List.indexOf GwAction.sendFSM
        [GwAction.sendFSM, GwAction.writeHeader, GwAction.subscribe,
          GwAction.unsubscribe, GwAction.respond] <
      List.indexOf GwAction.subscribe
        [GwAction.sendFSM, GwAction.writeHeader, GwAction.subscribe,
          GwAction.unsubscribe, GwAction.respond] :=
  ⟨by decide, by decide⟩

/-- Every completed wait loop consists solely of keep-alive writes. -/
theorem waitLoop_shape (d : FSMState) :
    ∀ evs u, waitLoop d evs = some u →
      ∃ n, u = List.replicate n GwAction.keepAlive := by
  intro evs
  induction evs with
  | nil => intro u h; simp [waitLoop] at h
  | cons e rest ih =>
      intro u h
      cases e with
      | statePub s2 =>
          by_cases hs : s2 = d
          · rw [waitLoop, if_pos hs] at h
            exact ⟨0, by simp [← Option.some_inj.mp h]⟩
          · rw [waitLoop, if_neg hs] at h
            exact ih u h
      | tick ok =>
          cases ok with
          | false =>
              rw [waitLoop] at h
              simp at h
              exact ⟨1, by simp [← h]⟩
          | true =>
              rw [waitLoop] at h
              simp at h
              obtain ⟨v, hv, hu⟩ := h
              obtain ⟨n, rfl⟩ := ih v hv
              exact ⟨n + 1, by simp [← hu, List.replicate_succ]⟩

/-- C6 (amended): on every terminating synchronous run the handler's trace
is: send the request into the FSM intake channel, write the response
header, subscribe to the State Notifier, zero or more keep-alive writes,
unsubscribe, respond — so the subscription happens after (not before) the
request is forwarded, and every exit path of the wait loop (desired state
reached, or keep-alive write failure) unsubscribes before the handler
finishes. -/
theorem C6_sync_wait_protocol (evs : List GwEvent) (t : List GwAction)
    (h : serveDialSync evs = some t) :
    ∃ n, t = GwAction.sendFSM :: GwAction.writeHeader :: GwAction.subscribe ::
      (List.replicate n GwAction.keepAlive ++
        [GwAction.unsubscribe, GwAction.respond]) := by
  unfold serveDialSync waitForFSMState at h
  cases hw : waitLoop FSMState.WaitingInputs evs with
  | none => rw [hw] at h; simp at h
  | some u =>
      rw [hw] at h
      simp at h
      obtain ⟨n, rfl⟩ := waitLoop_shape FSMState.WaitingInputs evs u hw
      exact ⟨n, by simp [← h]⟩

/-- C6 witness: a run with one keep-alive write followed by the machine
reaching `WaitingInputs`. -/
theorem C6_witness :
    ∃ n, [GwAction.sendFSM, GwAction.writeHeader, GwAction.subscribe,
        GwAction.keepAlive, GwAction.unsubscribe, GwAction.respond] =
      GwAction.sendFSM :: GwAction.writeHeader :: GwAction.subscribe ::
        (List.replicate n GwAction.keepAlive ++
          [GwAction.unsubscribe, GwAction.respond]) :=
  C6_sync_wait_protocol
    [GwEvent.tick true, GwEvent.statePub FSMState.WaitingInputs] _ (by decide)

/-- C7 counterexample: spec scenario (idle machine, request for
`sip:bob@host` with text `hello`, synthesis returning `/cache/a.wav`).
Exactly one dial command is issued and the counter becomes 1, but the dial
command carries no FSM-supplied token at all — `numDialCmds` is
incremented and then never read, and the adapter's `CmdDial` helper takes
only the number — so its token is in particular not `dial_cmd_1`. -/
theorem C7_counterexample :
    Reachable sampleIdle ∧
    sampleIdle.currentState = FSMState.WaitingInputs ∧
    (OnNewOutgoingCallRequest sampleIdle sampleRequest (some "/cache/a.wav") 5
        false).st.numDialCmds = 1 ∧
    (OnNewOutgoingCallRequest sampleIdle sampleRequest (some "/cache/a.wav") 5
        false).cmds = [BaresipCmd.dial "sip:bob@host"] ∧
    BaresipCmd.fsmToken (BaresipCmd.dial "sip:bob@host") = none ∧
    BaresipCmd.fsmToken (BaresipCmd.dial "sip:bob@host") ≠ some "dial_cmd_1" :=
  ⟨sampleIdle_reachable, by decide, by decide, by decide, by decide, by decide⟩

/-- C7 (amended): an outgoing-call request accepted from `WaitingInputs`
with successful speech synthesis increments `numDialCmds` by one and
issues exactly one dial command for the requested address, to which the
FSM attaches no token (the counter is not used to build a token); on
dial-send failure the machine returns to `WaitingInputs`, otherwise it
transitions to `WaitForCallEstablishment`; and `numDialCmds` never
decreases across any of the nine operations. -/
theorem C7_dial_behavior :
    (∀ s newRequest path now dialErr,
      s.currentState = FSMState.WaitingInputs →
      (OnNewOutgoingCallRequest s newRequest (some path) now dialErr).st.numDialCmds =
        s.numDialCmds + 1 ∧
      (OnNewOutgoingCallRequest s newRequest (some path) now dialErr).cmds =
        [BaresipCmd.dial newRequest.CalledNumber] ∧
      ((OnNewOutgoingCallRequest s newRequest (some path) now dialErr).cmds.map
        BaresipCmd.fsmToken) = [none] ∧
      (dialErr = true →
        (OnNewOutgoingCallRequest s newRequest (some path) now dialErr).st.currentState =
          FSMState.WaitingInputs) ∧
      (dialErr = false →
        (OnNewOutgoingCallRequest s newRequest (some path) now dialErr).st.currentState =
          FSMState.WaitForCallEstablishment)) ∧
    (∀ s sip_uri password uanewErr, s.numDialCmds ≤
      (InitializeUserAgent s sip_uri password uanewErr).st.numDialCmds) ∧
    (∀ s now hangupErr, s.numDialCmds ≤
      (OnTimeoutTicker s now hangupErr).st.numDialCmds) ∧
    (∀ s newRequest ttsResult now dialErr, s.numDialCmds ≤
      (OnNewOutgoingCallRequest s newRequest ttsResult now dialErr).st.numDialCmds) ∧
    (∀ s event, s.numDialCmds ≤ (OnRegisterOk s event).st.numDialCmds) ∧
    (∀ s event, s.numDialCmds ≤ (OnRegisterFail s event).st.numDialCmds) ∧
    (∀ s event, s.numDialCmds ≤ (OnCallOutgoing s event).st.numDialCmds) ∧
    (∀ s event ausrcErr now, s.numDialCmds ≤
      (OnCallEstablished s event ausrcErr now).st.numDialCmds) ∧
    (∀ s event hangupErr, s.numDialCmds ≤
      (OnEndOfFile s event hangupErr).st.numDialCmds) ∧
    (∀ s event, s.numDialCmds ≤ (OnCallClosed s event).st.numDialCmds) := by
  refine ⟨?_, ?_, ?_, ?_, ?_, ?_, ?_, ?_, ?_, ?_⟩
  · intro s newRequest path now dialErr h
    unfold OnNewOutgoingCallRequest
    rw [if_neg (by simp [h])]
    dsimp only
    cases dialErr <;>
      simp [transitionTo, transitionTo_numDialCmds, BaresipCmd.fsmToken]
  · intro s sip_uri password uanewErr
    unfold InitializeUserAgent
    split_ifs <;> simp [transitionTo_numDialCmds]
  · intro s now hangupErr
    unfold OnTimeoutTicker
    split_ifs <;> simp [transitionTo_numDialCmds]
  · intro s newRequest ttsResult now dialErr
    unfold OnNewOutgoingCallRequest
    cases ttsResult with
    | none =>
        dsimp only
        split_ifs <;> simp [transitionTo_numDialCmds]
    | some path =>
        dsimp only
        split_ifs <;> simp [transitionTo_numDialCmds]
  · intro s event
    unfold OnRegisterOk
    dsimp only
    split_ifs <;> simp [transitionTo_numDialCmds]
  · intro s event
    unfold OnRegisterFail
    simp [transitionTo_numDialCmds]
  · intro s event
    exact le_refl _
  · intro s event ausrcErr now
    unfold OnCallEstablished
    split_ifs <;> simp [transitionTo_numDialCmds]
  · intro s event hangupErr
    unfold OnEndOfFile
    split_ifs <;> simp
  · intro s event
    unfold OnCallClosed
    split_ifs <;> simp [transitionTo_numDialCmds]

/-- C7 witness: the accepted-request contract exercised on the failure
path of the dial send. -/
theorem C7_witness :
    (OnNewOutgoingCallRequest sampleIdle sampleRequest (some "/cache/c.wav") 7
        true).st.numDialCmds = sampleIdle.numDialCmds + 1 ∧
    (OnNewOutgoingCallRequest sampleIdle sampleRequest (some "/cache/c.wav") 7
        true).cmds = [BaresipCmd.dial sampleRequest.CalledNumber] ∧
    ((OnNewOutgoingCallRequest sampleIdle sampleRequest (some "/cache/c.wav") 7
        true).cmds.map BaresipCmd.fsmToken) = [none] ∧
    (true = true →
      (OnNewOutgoingCallRequest sampleIdle sampleRequest (some "/cache/c.wav") 7
          true).st.currentState = FSMState.WaitingInputs) ∧
    (true = false →
      (OnNewOutgoingCallRequest sampleIdle sampleRequest (some "/cache/c.wav") 7
          true).st.currentState = FSMState.WaitForCallEstablishment) :=
  C7_dial_behavior.1 sampleIdle sampleRequest "/cache/c.wav" 7 true (by decide)

/-- C8: `OnRegisterOk` sets `registered` in every state, returns no error
and sends no command; a state change to `WaitingInputs` happens exactly
when the machine was in `WaitingUserAgentRegistration`; in every other
state the whole record except `registered` is untouched. -/
theorem C8_register_ok (s : VoipClientFSM) (event : EventMsg) :
    (OnRegisterOk s event).err = none ∧
    (OnRegisterOk s event).cmds = [] ∧
    (OnRegisterOk s event).st.registered = true ∧
    (((OnRegisterOk s event).st.currentState = FSMState.WaitingInputs ∧
        s.currentState ≠ FSMState.WaitingInputs) ↔
      s.currentState = FSMState.WaitingUserAgentRegistration) ∧
    (s.currentState ≠ FSMState.WaitingUserAgentRegistration →
      (OnRegisterOk s event).st = { s with registered := true }) := by
  unfold OnRegisterOk
  dsimp only
  by_cases h : s.currentState = FSMState.WaitingUserAgentRegistration
  · rw [if_pos h]
    refine ⟨rfl, rfl, by simp [transitionTo], ?_, fun hc => absurd h hc⟩
    simp [transitionTo, h]
  · rw [if_neg h]
    refine ⟨rfl, rfl, rfl, ?_, fun _ => rfl⟩
    simp [h]

/-- C8 witness: a successful re-registration while a call is in flight
(state `WaitForCallEstablishment`) leaves everything but `registered`
untouched. -/
theorem C8_witness :
    (OnRegisterOk sampleDialed sampleRegEvent).st =
      { sampleDialed with registered := true } :=
  (C8_register_ok sampleDialed sampleRegEvent).2.2.2.2 (by decide)

/-- C9: `OnRegisterFail` marks `registered = false` and, from every state,
transitions unconditionally to `WaitingUserAgentRegistration`, with no
error and no command. -/
theorem C9_register_fail (s : VoipClientFSM) (event : EventMsg) :
    (OnRegisterFail s event).err = none ∧
    (OnRegisterFail s event).cmds = [] ∧
    (OnRegisterFail s event).st.registered = false ∧
    (OnRegisterFail s event).st.currentState =
      FSMState.WaitingUserAgentRegistration := by
  unfold OnRegisterFail
  refine ⟨rfl, rfl, ?_, ?_⟩ <;>
    simp [transitionTo_not_idle _ _ (by simp : FSMState.WaitingUserAgentRegistration ≠ FSMState.WaitingInputs)]

/-- C10: a call-closed event arriving in `Uninitialized` or
`WaitingUserAgentRegistration` with no call ever dialed
(`currentCallId = ""`) is accepted: no error is returned and the machine
transitions to `WaitingInputs`, skipping past the registration phase. -/
theorem C10_spurious_close (s : VoipClientFSM) (event : EventMsg)
    (hstate : s.currentState = FSMState.Uninitialized ∨
      s.currentState = FSMState.WaitingUserAgentRegistration)
    (hid : s.currentCallId = "") :
    (OnCallClosed s event).err = none ∧
    (OnCallClosed s event).st.currentState = FSMState.WaitingInputs := by
  have h1 : s.currentState ≠ FSMState.WaitingInputs := by
    rcases hstate with h | h <;> simp [h]
  unfold OnCallClosed
  rw [if_neg h1, if_neg (by simp [hid])]
  exact ⟨rfl, by simp [transitionTo]⟩

/-- C10 witness: a spurious close event on the freshly constructed machine
moves it straight to `WaitingInputs`. -/
theorem C10_witness :
    (OnCallClosed sampleUninit sampleCallEvent).err = none ∧
    (OnCallClosed sampleUninit sampleCallEvent).st.currentState =
      FSMState.WaitingInputs :=
  C10_spurious_close sampleUninit sampleCallEvent (Or.inl (by decide))
    (by decide)

end VoipClient
